import Mathlib

/-!
Shallow embedding of the Harvard opinion-cluster merge engine
(cl/corpus_importer/management/commands/harvard_merge.py) and proofs about it.

The external collaborators named out of scope by the design document (cosine
similarity scorer, judge-last-name extraction, titlecase, harmonize,
docket-number normalization, date validation, markup-to-text conversion and
the list-alignment matcher) are modelled as an explicit `Oracles` record of
function parameters; the ORM store (OpinionCluster, Docket, Opinion rows) is
modelled as an explicit `Store` value threaded through every operation, and
Python exceptions are modelled with `Except MergeErr`.
-/

/-- Exceptions that can escape the merge code: the two named aborts declared
in harvard_merge.py (AuthorException, JudgeException) plus the generic Python
failures the code can raise (IndexError from indexing an empty xpath result,
DoesNotExist from ORM point reads, AttributeError from attribute access on a
missing row). -/
inductive MergeErr where
  | author
  | judge
  | indexError
  | doesNotExist
  | attrError
  deriving DecidableEq, Repr

/-- One Docket row: docket number plus the provenance source tag. -/
structure Docket where
  id : Nat
  docketNumber : String
  source : Nat
  deriving DecidableEq, Repr

/-- One Opinion row: the author free-text field, the nullable resolved-author
reference, the alternative body-text representations consulted in fixed
priority order by fetch_cl_opinion_content, the slot for matched imported
markup and the opinion type tag. -/
structure Opinion where
  id : Nat
  clusterId : Nat
  authorStr : String
  author : Option Nat
  htmlColumbia : String
  htmlWithCitations : String
  html : String
  htmlLawbox : String
  plainText : String
  xmlHarvard : String
  opType : String
  deriving DecidableEq, Repr

/-- One imported opinion segment of the case-body markup: the text nodes of
its author sub-elements (the xpath .//author/text() result) and its
serialized markup (the get_html_from_element result).  The XML parsing
itself is done by external libraries (lxml), so segments are carried
pre-parsed. -/
structure HarvardOpinion where
  authorTexts : List String
  markup : String
  deriving DecidableEq, Repr

/-- One ImportedDataset (the Harvard json document for a case).
`casebodyData` is the raw case-body markup blob; `opinions` is the parsed
list of its opinion segments; `extracted` is the auxiliary field map produced
from the casebody by fetch_non_harvard_data before empty-value filtering
(the BeautifulSoup / parse_extra_fields / judge extraction step lives in
harvard_opinions.py, outside this tree, so its output is carried
pre-computed). -/
structure HarvardData where
  casebodyData : String
  opinions : List HarvardOpinion
  docketNumber : String
  name : String
  nameAbbreviation : String
  extracted : List (String × String)
  deriving DecidableEq, Repr

/-- One OpinionCluster row.  case_name and case_name_full are dedicated
columns; the remaining text columns the merge touches (judges, syllabus,
summary, history, headnotes, correction, cross_reference, disposition,
attorneys, date fields) are reached by dynamic attribute access in the
source, modelled as an association list with default value empty string. -/
structure Cluster where
  id : Nat
  docketId : Nat
  caseName : String
  caseNameFull : String
  dateFiledIsApprox : Bool
  fields : List (String × String)
  harvardJson : Option HarvardData
  deriving DecidableEq, Repr

/-- The mutable record store: cluster rows, docket rows, opinion rows and the
id the next created Opinion row receives. -/
structure Store where
  clusters : List Cluster
  dockets : List Docket
  opinions : List Opinion
  nextOpinionId : Nat
  deriving DecidableEq, Repr

/-- The external collaborator functions consumed by the merge engine, treated
as opaque deterministic oracles exactly as the design document scopes them:
get_cosine_similarity, extract_judge_last_name, titlecase, harmonize,
clean_docket_number, validate_dt (date value and is-approximate flag),
markup text_content conversion, and the match_lists alignment function
(returning the items of the existing-index to imported-index mapping,
empty when no confident alignment exists). -/
structure Oracles where
  sim : String → String → ℚ
  extractJudges : String → List String
  titlecase : String → String
  harmonize : String → String
  cleanDocket : String → String
  validateDt : String → String × Bool
  textContent : String → String
  matchLists : List HarvardOpinion → List String → List (Nat × Nat)

/-! ## Store helpers (the ORM point reads and writes) -/

/-- Look up a cluster row by id. -/
def findCluster (cs : List Cluster) (cid : Nat) : Option Cluster :=
  cs.find? (fun c => c.id == cid)

def getCluster? (s : Store) (cid : Nat) : Option Cluster :=
  findCluster s.clusters cid

/-- OpinionCluster.objects.get(id=...): raises DoesNotExist when absent. -/
def getClusterE (s : Store) (cid : Nat) : Except MergeErr Cluster :=
  match getCluster? s cid with
  | some c => Except.ok c
  | none => Except.error MergeErr.doesNotExist

def getDocket? (s : Store) (did : Nat) : Option Docket :=
  s.dockets.find? (fun d => d.id == did)

/-- cluster.docket: the related-object read; raises when the row is absent. -/
def getDocketE (s : Store) (did : Nat) : Except MergeErr Docket :=
  match getDocket? s did with
  | some d => Except.ok d
  | none => Except.error MergeErr.doesNotExist

/-- Dynamic attribute read on a cluster row (getattr), default empty. -/
def getField (fs : List (String × String)) (k : String) : String :=
  match fs.find? (fun kv => kv.1 == k) with
  | some kv => kv.2
  | none => ""

/-- Dynamic attribute write on a cluster row. -/
def setField (fs : List (String × String)) (k v : String) : List (String × String) :=
  if fs.any (fun kv => kv.1 == k) then
    fs.map (fun kv => if kv.1 == k then (k, v) else kv)
  else
    fs ++ [(k, v)]

/-- OpinionCluster.objects.filter(id=...).update(field=value): updates the
matching rows, no error when none match. -/
def updateClusterField (s : Store) (cid : Nat) (k v : String) : Store :=
  { s with clusters := s.clusters.map (fun c =>
      if c.id == cid then { c with fields := setField c.fields k v } else c) }

/-- OpinionCluster.objects.filter(id=...).update(**update_dict) restricted to
the two case-name columns; a `none` entry means the key is absent from
update_dict and the stored value is kept. -/
def updateClusterNames (s : Store) (cid : Nat) (n f : Option String) : Store :=
  { s with clusters := s.clusters.map (fun c =>
      if c.id == cid then
        { c with caseName := n.getD c.caseName, caseNameFull := f.getD c.caseNameFull }
      else c) }

/-- Docket.objects.update(docket_number=...): the source issues this call
UNFILTERED, so it rewrites the docket number of every docket row. -/
def updateAllDockets (s : Store) (n : String) : Store :=
  { s with dockets := s.dockets.map (fun d => { d with docketNumber := n }) }

/-- docket.save() after mutating its source tag: updates that one row. -/
def updateDocketSource (s : Store) (did : Nat) (src : Nat) : Store :=
  { s with dockets := s.dockets.map (fun d =>
      if d.id == did then { d with source := src } else d) }

/-- op.save(): write one opinion row back by id. -/
def updateOpinion (s : Store) (op : Opinion) : Store :=
  { s with opinions := s.opinions.map (fun q => if q.id == op.id then op else q) }

/-- Opinion.objects.filter(cluster__id=...): the ordered opinion rows of one
cluster. -/
def opinionsOf (s : Store) (cid : Nat) : List Opinion :=
  s.opinions.filter (fun op => op.clusterId == cid)

/-- Python substring test (needle in hay). -/
def strContains (hay needle : String) : Bool :=
  (List.range (hay.toList.length + 1)).any
    (fun i => needle.toList.isPrefixOf (hay.toList.drop i))

/-! ## Embedded source functions (harvard_merge.py) -/

/-- read_json: fetch the cluster (DoesNotExist propagates) and return its
Harvard json when the filepath field is set, otherwise None. -/
def readJson (s : Store) (cid : Nat) : Except MergeErr (Option HarvardData) := do
  let cluster ← getClusterE s cid
  Except.ok cluster.harvardJson

/-- fetch_non_harvard_data: the casebody parsing itself (BeautifulSoup and
parse_extra_fields, which live outside this tree) is carried pre-computed in
HarvardData.extracted; this function keeps only the entries with non-empty
values, as the final comprehension in the source does. -/
def fetchNonHarvardData (hd : HarvardData) : List (String × String) :=
  hd.extracted.filter (fun kv => kv.2 ≠ "")

/-- clean_dictionary.pop(old) followed by insertion under the new key: the
renamed entry moves to the end, in dict insertion order. -/
def renameKey (cd : List (String × (String × String))) (old nw : String) :
    List (String × (String × String)) :=
  match cd.find? (fun kv => kv.1 == old) with
  | none => cd
  | some kv => (cd.filter (fun p => p.1 ≠ old)) ++ [(nw, kv.2)]

/-- The loop of combine_non_overlapping_data: per extracted key, read the
cluster attribute from the snapshot fetched before the loop; when empty on
the record, fill it directly with one field update; when present and
differing, queue it as a conflict pair (harvard value, cl value). -/
def combineLoop (cid : Nat) (cluster : Cluster) (items : List (String × String))
    (s : Store) (cd : List (String × (String × String))) :
    Store × List (String × (String × String)) :=
  match items with
  | [] => (s, cd)
  | kv :: rest =>
    let clValue := getField cluster.fields kv.1
    if clValue = "" then
      combineLoop cid cluster rest (updateClusterField s cid kv.1 kv.2) cd
    else if kv.2 ≠ clValue then
      combineLoop cid cluster rest s (cd ++ [(kv.1, (kv.2, clValue))])
    else
      combineLoop cid cluster rest s cd

/-- combine_non_overlapping_data: direct-fill the one-sided fields, queue the
conflicting ones, then rename otherdate to other_dates and seealso to
cross_reference in the conflict dictionary. -/
def combineNonOverlappingData (cid : Nat) (hd : HarvardData) (s : Store) :
    Except MergeErr (List (String × (String × String)) × Store) := do
  let cluster ← getClusterE s cid
  let (s1, cd) := combineLoop cid cluster (fetchNonHarvardData hd) s []
  let cd := renameKey cd "otherdate" "other_dates"
  let cd := renameKey cd "seealso" "cross_reference"
  Except.ok (cd, s1)

/-- merge_long_fields: cosine-compare the two values; when similarity is
below 0.9 and the harvard value is strictly longer, overwrite the field with
it; otherwise no write. -/
def mergeLongFields (o : Oracles) (cid : Nat) (fieldName : String)
    (d : String × String) (s : Store) : Except MergeErr Store :=
  if o.sim d.1 d.2 < (9 : ℚ) / 10 then
    if d.1.length > d.2.length then
      Except.ok (updateClusterField s cid fieldName d.1)
    else
      Except.ok s
  else
    Except.ok s

/-- merge_judges: build the two last-name sets; when the harvard set is a
superset of the cl set and the sets differ, overwrite the judges field with
the titlecased comma-join of the harvard extraction list (no sorting, no
dedup in the source); when the sets do not intersect at all, raise
JudgeException; otherwise no write. -/
def mergeJudges (o : Oracles) (cid : Nat) (d : String × String) (s : Store) :
    Except MergeErr Store :=
  if (o.extractJudges d.2).toFinset ⊆ (o.extractJudges d.1).toFinset ∧
     (o.extractJudges d.1).toFinset ≠ (o.extractJudges d.2).toFinset then
    Except.ok (updateClusterField s cid "judges"
      (o.titlecase (String.intercalate ", " (o.extractJudges d.1))))
  else if (o.extractJudges d.1).toFinset ∩ (o.extractJudges d.2).toFinset = ∅ then
    Except.error MergeErr.judge
  else
    Except.ok s

/-- merge_dates: .filter(id=...).first() yields None on a missing row, and
the subsequent attribute access raises; otherwise validate the harvard value
and overwrite the field when the stored date is approximate and the harvard
one is not. -/
def mergeDates (o : Oracles) (cid : Nat) (fieldName : String)
    (d : String × String) (s : Store) : Except MergeErr Store :=
  match getCluster? s cid with
  | none => Except.error MergeErr.attrError
  | some cluster =>
    let vd := o.validateDt d.1
    if cluster.dateFiledIsApprox ∧ ¬ vd.2 then
      Except.ok (updateClusterField s cid fieldName vd.1)
    else
      Except.ok s

/-- merge_strings: keep the character-longer value; only a strictly longer
harvard value is written. -/
def mergeStrings (cid : Nat) (fieldName : String) (d : String × String)
    (s : Store) : Except MergeErr Store :=
  if d.1.length > d.2.length then
    Except.ok (updateClusterField s cid fieldName d.1)
  else
    Except.ok s

/-- merge_docket_numbers: when the cl docket number is non-empty and a
substring of the harvard one, adopt the harvard one; otherwise compare the
cleaned forms and adopt the harvard one when similarity exceeds 0.8 and it
is strictly longer.  Both overwrites go through the UNFILTERED
Docket.objects.update of the source, which touches every docket row. -/
def mergeDocketNumbers (o : Oracles) (cid : Nat) (harvardDocketNumber : String)
    (s : Store) : Except MergeErr Store := do
  let cluster ← getClusterE s cid
  let docket ← getDocketE s cluster.docketId
  let clDocketNumber := docket.docketNumber
  if clDocketNumber ≠ "" then
    if strContains harvardDocketNumber clDocketNumber then
      Except.ok (updateAllDockets s harvardDocketNumber)
    else
      let clClean := o.cleanDocket clDocketNumber
      let hClean := o.cleanDocket harvardDocketNumber
      if (8 : ℚ) / 10 < o.sim clClean hClean then
        if harvardDocketNumber.length > clDocketNumber.length then
          Except.ok (updateAllDockets s harvardDocketNumber)
        else
          Except.ok s
      else
        Except.ok s
  else
    Except.ok s

/-- One name-field resolution step of merge_case_names: adopt the harvard
value when the cl value is empty, or when both are present and the harvard
value is strictly longer; the first component is the update_dict entry
(none when the key stays absent), the second the running local value. -/
def resolveName (clValue hValue : String) : Option String × String :=
  if clValue = "" ∧ hValue ≠ "" then (some hValue, hValue)
  else if clValue ≠ "" ∧ hValue ≠ "" ∧ hValue.length > clValue.length then
    (some hValue, hValue)
  else (none, clValue)

/-- The update_dict merge_case_names ends with: start from the entries the
two independent resolutions produced, then, when both resolved locals are
non-empty and the resolved short name is strictly longer than the resolved
full name, overwrite both entries with the swapped pair of locals.  First
component is the case_name entry, second the case_name_full entry. -/
def caseNameUpd (rFull rName : Option String × String) :
    Option String × Option String :=
  if rFull.2 ≠ "" ∧ rName.2 ≠ "" ∧ rName.2.length > rFull.2.length then
    (some rFull.2, some rName.2)
  else
    (rName.1, rFull.1)

/-- merge_case_names: harmonize all four names, resolve the full and the
abbreviated name independently, apply the swap rule, then apply the
resulting update_dict. -/
def mergeCaseNames (o : Oracles) (cid : Nat) (hd : HarvardData) (s : Store) :
    Except MergeErr Store := do
  let cluster ← getClusterE s cid
  let rFull := resolveName (o.harmonize cluster.caseNameFull) (o.harmonize hd.name)
  let rName := resolveName (o.harmonize cluster.caseName) (o.harmonize hd.nameAbbreviation)
  Except.ok (updateClusterNames s cid (caseNameUpd rFull rName).1
    (caseNameUpd rFull rName).2)

/-- The long-text field names dispatched by merge_overlapping_data. -/
def longFieldNames : List String :=
  ["syllabus", "summary", "history", "headnotes", "correction",
   "cross_reference", "disposition"]

/-- One iteration of the merge_overlapping_data dispatch loop: route the
queued conflict to the per-field merge function by name; unrecognized names
are logged and skipped. -/
def dispatchField (o : Oracles) (cid : Nat) (kv : String × (String × String))
    (s : Store) : Except MergeErr Store :=
  if longFieldNames.contains kv.1 then
    mergeLongFields o cid kv.1 kv.2 s
  else if kv.1 = "date_filed" ∨ kv.1 = "other_dates" then
    mergeDates o cid kv.1 kv.2 s
  else if kv.1 = "judges" then
    mergeJudges o cid kv.2 s
  else if kv.1 = "attorneys" then
    mergeStrings cid kv.1 kv.2 s
  else
    Except.ok s

/-- The dispatch loop over the queued conflicts, in dict order. -/
def dispatchAll (o : Oracles) (cid : Nat)
    (ds : List (String × (String × String))) (s : Store) :
    Except MergeErr Store :=
  match ds with
  | [] => Except.ok s
  | kv :: rest => do
    let s1 ← dispatchField o cid kv s
    dispatchAll o cid rest s1

/-- merge_overlapping_data, exactly as the source reads: when the conflict
dictionary is NON-empty the function logs and returns immediately, and the
dispatch loop below the check therefore only ever runs on an empty
dictionary. -/
def mergeOverlappingData (o : Oracles) (cid : Nat)
    (cleanDictionary : List (String × (String × String))) (s : Store) :
    Except MergeErr Store :=
  if cleanDictionary ≠ [] then
    Except.ok s
  else
    dispatchAll o cid cleanDictionary s

/-- The Docket.HARVARD source constant.  Modelled from the spec: the Docket
model (cl.search.models) is outside this tree; the spec describes the
provenance tag as a bitmask of contributing origins to which the merge adds
the imported-corpus origin.  The concrete numeric value is immaterial to
every claim. -/
def HARVARD_SOURCE : Nat := 8

/-- update_docket: read the docket of the cluster, add the Harvard source
constant to its tag and save that one docket row. -/
def updateDocket (cid : Nat) (s : Store) : Except MergeErr Store := do
  let cluster ← getClusterE s cid
  let docket ← getDocketE s cluster.docketId
  Except.ok (updateDocketSource s docket.id (HARVARD_SOURCE + docket.source))

/-- The body of the representation-priority loop in fetch_cl_opinion_content:
take the first non-empty representation in the fixed order html_columbia,
html_with_citations, html, html_lawbox, plain_text (falling through to
plain_text when all are empty), and convert html variants to plain text. -/
def clOpinionContent (o : Oracles) (op : Opinion) : String :=
  let chosen :=
    if op.htmlColumbia ≠ "" then ("html_columbia", op.htmlColumbia)
    else if op.htmlWithCitations ≠ "" then ("html_with_citations", op.htmlWithCitations)
    else if op.html ≠ "" then ("html", op.html)
    else if op.htmlLawbox ≠ "" then ("html_lawbox", op.htmlLawbox)
    else ("plain_text", op.plainText)
  if strContains chosen.1 "html" then o.textContent chosen.2 else chosen.2

/-- fetch_cl_opinion_content over the sub opinions of a cluster. -/
def fetchClOpinionContent (o : Oracles) (subOps : List Opinion) : List String :=
  subOps.map (clOpinionContent o)

/-- The body of the matched-pairs loop in map_and_merge_opinions for one
(existing-index, imported-index) pair: index both sequences (IndexError when
out of range); when the existing opinion has a free-text author and no
resolved author reference, take the first author text of the imported
segment (IndexError when it has none), raise AuthorException when the
extracted last names differ, otherwise overwrite author_str with it; in all
non-raising cases store the imported markup on the opinion and save it. -/
def mergeMatchedPair (o : Oracles) (subOps : List Opinion)
    (harvardOps : List HarvardOpinion) (kv : Nat × Nat) (s : Store) :
    Except MergeErr Store :=
  match subOps.get? kv.1, harvardOps.get? kv.2 with
  | none, _ => Except.error MergeErr.indexError
  | some _, none => Except.error MergeErr.indexError
  | some op, some hop =>
    if op.authorStr ≠ "" ∧ op.author = none then
      match hop.authorTexts with
      | [] => Except.error MergeErr.indexError
      | hvd :: _ =>
        if o.extractJudges op.authorStr ≠ o.extractJudges hvd then
          Except.error MergeErr.author
        else
          Except.ok (updateOpinion s
            { op with authorStr := hvd, xmlHarvard := hop.markup })
    else
      Except.ok (updateOpinion s { op with xmlHarvard := hop.markup })

/-- The matched-pairs loop over the whole alignment mapping. -/
def mergeMatchedPairs (o : Oracles) (subOps : List Opinion)
    (harvardOps : List HarvardOpinion) (ms : List (Nat × Nat)) (s : Store) :
    Except MergeErr Store :=
  match ms with
  | [] => Except.ok s
  | kv :: rest => do
    let s1 ← mergeMatchedPair o subOps harvardOps kv s
    mergeMatchedPairs o subOps harvardOps rest s1

/-- The combined opinion row Opinion.objects.create builds on alignment
abandonment: the entire imported case body verbatim under the distinct
010combined type, every other column at its default. -/
def combinedOpinion (s : Store) (cid : Nat) (caseBody : String) : Opinion :=
  { id := s.nextOpinionId, clusterId := cid, authorStr := "", author := none,
    htmlColumbia := "", htmlWithCitations := "", html := "", htmlLawbox := "",
    plainText := "", xmlHarvard := caseBody, opType := "010combined" }

/-- The store after creating the combined opinion row. -/
def appendCombined (s : Store) (cid : Nat) (caseBody : String) : Store :=
  { s with opinions := s.opinions ++ [combinedOpinion s cid caseBody],
           nextOpinionId := s.nextOpinionId + 1 }

/-- Opinion.objects.create(xml_harvard=case_body, cluster=get(id), type=...):
the cluster point read raises DoesNotExist when absent. -/
def createCombined (cid : Nat) (caseBody : String) (s : Store) :
    Except MergeErr Store := do
  let _ ← getClusterE s cid
  Except.ok (appendCombined s cid caseBody)

/-- map_and_merge_opinions: when the imported segment count differs from the
existing opinion count, or the matcher returns no mapping, create the single
combined opinion; otherwise run the matched-pairs loop (the
used_combined_opinions flag of the source is flattened into this branch
structure, which takes the same paths). -/
def mapAndMergeOpinions (o : Oracles) (cid : Nat) (hd : HarvardData)
    (s : Store) : Except MergeErr Store :=
  let caseBody := hd.casebodyData
  let subOps := opinionsOf s cid
  let harvardOps := hd.opinions
  let clOps := fetchClOpinionContent o subOps
  if harvardOps.length ≠ clOps.length then
    createCombined cid caseBody s
  else
    let ms := o.matchLists harvardOps clOps
    if ms = [] then
      createCombined cid caseBody s
    else
      mergeMatchedPairs o subOps harvardOps ms s

/-- The body of the transaction.atomic block of merge_opinion_clusters, in
source order. -/
def mergeBody (o : Oracles) (cid : Nat) (hd : HarvardData) (s : Store) :
    Except MergeErr Store := do
  let s1 ← mapAndMergeOpinions o cid hd s
  let (cleanDictionary, s2) ← combineNonOverlappingData cid hd s1
  let s3 ← mergeDocketNumbers o cid hd.docketNumber s2
  let s4 ← mergeCaseNames o cid hd s3
  let s5 ← mergeOverlappingData o cid cleanDictionary s4
  updateDocket cid s5

/-- Terminal result of one record merge: committed, skipped when no Harvard
json exists, one of the two named aborts the per-record handlers catch, or
an exception no handler catches. -/
inductive RecResult where
  | committed
  | skipped
  | abortedAuthorship
  | abortedJudges
  | uncaught (e : MergeErr)
  deriving DecidableEq, Repr

def RecResult.isUncaught : RecResult → Bool
  | .uncaught _ => true
  | _ => false

/-- merge_opinion_clusters: read the Harvard json (a read failure happens
before the try block and propagates); skip when absent; otherwise run the
whole body inside one atomic transaction, so that ANY exception leaving the
block rolls every write back to the initial store.  AuthorException and
JudgeException are caught and logged; every other exception keeps
propagating after the rollback. -/
def mergeOpinionClusters (o : Oracles) (cid : Nat) (s : Store) :
    Store × RecResult :=
  match readJson s cid with
  | Except.error e => (s, RecResult.uncaught e)
  | Except.ok none => (s, RecResult.skipped)
  | Except.ok (some hd) =>
    match mergeBody o cid hd s with
    | Except.ok s1 => (s1, RecResult.committed)
    | Except.error MergeErr.author => (s, RecResult.abortedAuthorship)
    | Except.error MergeErr.judge => (s, RecResult.abortedJudges)
    | Except.error e => (s, RecResult.uncaught e)

/-- The per-record loop of start_merger over the selected cluster ids (the
eligibility query itself runs against Docket.SOURCE_CHOICES outside this
tree; the loop takes the resulting id sequence).  An exception escaping
merge_opinion_clusters terminates the loop: the remaining ids are never
processed. -/
def runBatch (o : Oracles) (ids : List Nat) (s : Store) :
    Store × Option MergeErr :=
  match ids with
  | [] => (s, none)
  | cid :: rest =>
    match mergeOpinionClusters o cid s with
    | (s1, RecResult.uncaught e) => (s1, some e)
    | (s1, _) => runBatch o rest s1

/-! ## Concrete fixtures used by witnesses and counterexamples -/

/-- A concrete judge-name extractor for instantiating the oracle: a lookup
table of normalized last names for the attribution strings the fixtures use
(single-name result, as for a single-judge attribution). -/
def lastNameOf (t : String) : List String :=
  if t = "J. Smith" then ["smith"]
  else if t = "John Smith" then ["smith"]
  else if t = "John Doe" then ["doe"]
  else [t]

/-- An identity-index alignment oracle: match position i to position i. -/
def idMatch (hops : List HarvardOpinion) (clOps : List String) :
    List (Nat × Nat) :=
  (List.range (min hops.length clOps.length)).map (fun i => (i, i))

/-- Concrete collaborator instantiation used by most fixtures. -/
def oracleA : Oracles :=
  { sim := fun _ _ => 0,
    extractJudges := lastNameOf,
    titlecase := id,
    harmonize := id,
    cleanDocket := id,
    validateDt := fun d => (d, false),
    textContent := id,
    matchLists := idMatch }

/-- A concrete judge-name extractor returning multi-name lists, in the order
the names appear in the text (the real extractor returns the names as found;
nothing in merge_judges re-sorts them). -/
def namesOf (t : String) : List String :=
  if t = "Smith, Jones" then ["Smith", "Jones"]
  else if t = "Smith" then ["Smith"]
  else if t = "Jones" then ["Jones"]
  else []

/-- Collaborator instantiation whose judge extractor yields multi-name
lists, for exercising multi-judge strings. -/
def oracleB : Oracles :=
  { oracleA with extractJudges := namesOf }

/-- An existing opinion with a free-text author and no resolved author. -/
def opJSmith : Opinion :=
  { id := 10, clusterId := 1, authorStr := "J. Smith", author := none,
    htmlColumbia := "", htmlWithCitations := "", html := "", htmlLawbox := "",
    plainText := "body text", xmlHarvard := "", opType := "020lead" }

/-- Imported dataset whose single opinion segment has NO author sub-element. -/
def hdNoAuthorText : HarvardData :=
  { casebodyData := "cb1", opinions := [{ authorTexts := [], markup := "m1" }],
    docketNumber := "", name := "", nameAbbreviation := "", extracted := [] }

/-- Imported dataset with no opinion segments and no auxiliary fields. -/
def hdEmptyBody : HarvardData :=
  { casebodyData := "cb2", opinions := [], docketNumber := "", name := "",
    nameAbbreviation := "", extracted := [] }

/-- Imported dataset whose single opinion segment is authored by John Doe. -/
def hdJohnDoe : HarvardData :=
  { casebodyData := "cb3", opinions := [{ authorTexts := ["John Doe"], markup := "m3" }],
    docketNumber := "", name := "", nameAbbreviation := "", extracted := [] }

/-- Two-record store: cluster 1 will hit the empty-author-text IndexError,
cluster 2 merges cleanly (combined opinion, provenance update). -/
def stBatch : Store :=
  { clusters := [
      { id := 1, docketId := 1, caseName := "A v. B", caseNameFull := "",
        dateFiledIsApprox := false, fields := [], harvardJson := some hdNoAuthorText },
      { id := 2, docketId := 2, caseName := "", caseNameFull := "",
        dateFiledIsApprox := false, fields := [], harvardJson := some hdEmptyBody }],
    dockets := [
      { id := 1, docketNumber := "", source := 2 },
      { id := 2, docketNumber := "", source := 2 }],
    opinions := [opJSmith],
    nextOpinionId := 100 }

/-- One-record store whose merge aborts on an authorship mismatch. -/
def stAbort : Store :=
  { clusters := [
      { id := 1, docketId := 1, caseName := "A v. B", caseNameFull := "",
        dateFiledIsApprox := false, fields := [], harvardJson := some hdJohnDoe }],
    dockets := [{ id := 1, docketNumber := "", source := 2 }],
    opinions := [opJSmith],
    nextOpinionId := 100 }

/-- Two-docket store for the docket-number merge: docket 1 belongs to the
merged cluster, docket 2 belongs to an unrelated cluster. -/
def stDockets : Store :=
  { clusters := [
      { id := 1, docketId := 1, caseName := "A v. B", caseNameFull := "",
        dateFiledIsApprox := false, fields := [], harvardJson := none },
      { id := 7, docketId := 2, caseName := "C v. D", caseNameFull := "",
        dateFiledIsApprox := false, fields := [], harvardJson := none }],
    dockets := [
      { id := 1, docketNumber := "12-345", source := 2 },
      { id := 2, docketNumber := "99-999", source := 2 }],
    opinions := [],
    nextOpinionId := 100 }

/-- Minimal one-cluster store with a judges field, for field-level fixtures. -/
def stOne : Store :=
  { clusters := [
      { id := 1, docketId := 1, caseName := "", caseNameFull := "",
        dateFiledIsApprox := false, fields := [("judges", "Smith")],
        harvardJson := none }],
    dockets := [{ id := 1, docketNumber := "", source := 2 }],
    opinions := [],
    nextOpinionId := 100 }

/-- One-cluster store whose short case name is set and full case name empty. -/
def stShortOnly : Store :=
  { clusters := [
      { id := 1, docketId := 1, caseName := "abc", caseNameFull := "",
        dateFiledIsApprox := false, fields := [], harvardJson := none }],
    dockets := [{ id := 1, docketNumber := "", source := 2 }],
    opinions := [],
    nextOpinionId := 100 }

/-! ## Claims -/

/-- C1: the claim says the orchestrator runs the Field Reconciler over every
queued conflict whenever the conflict partition is non-empty.  The source
has the emptiness check inverted: merge_overlapping_data returns immediately
exactly when the conflict dictionary is non-empty, so the dispatch loop only
ever runs on an empty dictionary and the function NEVER writes and NEVER
raises, for any input (first conjunct); the second conjunct shows the Field
Reconciler it should have invoked on the queued judges conflict would have
aborted, so the difference is observable. -/
theorem c1_conflict_queue_never_visited :
    (∀ (o : Oracles) (cid : Nat) (cd : List (String × (String × String)))
        (s : Store), mergeOverlappingData o cid cd s = Except.ok s)
    ∧ mergeJudges oracleB 1 ("Smith", "Jones") stOne
        = Except.error MergeErr.judge := by
  constructor
  · intro o cid cd s
    cases cd <;> simp [mergeOverlappingData, dispatchAll]
  · rfl

/-- C3: the claim says the docket-number overwrite touches only the
DocketRecord of the merged CaseRecord.  The source calls
Docket.objects.update without a filter, which rewrites every docket row:
docket 2 belongs to an unrelated cluster, held 99-999 before the merge of
cluster 1, and holds the imported number afterwards. -/
theorem c3_docket_update_unfiltered :
    mergeDocketNumbers oracleA 1 "No. 12-345-CV" stDockets
      = Except.ok (updateAllDockets stDockets "No. 12-345-CV")
    ∧ getDocket? stDockets 2
        = some { id := 2, docketNumber := "99-999", source := 2 }
    ∧ getDocket? (updateAllDockets stDockets "No. 12-345-CV") 2
        = some { id := 2, docketNumber := "No. 12-345-CV", source := 2 } := by
  refine ⟨by rfl, by decide, by decide⟩

/-- C10: on a successful alignment where the matched imported segment has no
author sub-element while the existing opinion has a free-text author and no
resolved author, indexing the empty author-text list raises an IndexError
that is neither named abort: merge_opinion_clusters ends uncaught (after the
transaction rollback) and the batch loop is terminated by it. -/
theorem c10_missing_author_element_escapes :
    mergeOpinionClusters oracleA 1 stBatch
      = (stBatch, RecResult.uncaught MergeErr.indexError)
    ∧ runBatch oracleA [1] stBatch = (stBatch, some MergeErr.indexError) := by
  constructor <;> decide

/-- C2 counterexample: the claim says any unexpected exception on one record
leaves the batch processing of subsequent records intact.  Concretely,
record 1 raises the empty-author-text IndexError, the batch run over [1, 2]
stops with that error and the store unchanged, while record 2 on its own
would merge to completion and change the store — so the Orchestrator was
never invoked on record 2. -/
theorem c2_counterexample_batch_halts :
    runBatch oracleA [1, 2] stBatch = (stBatch, some MergeErr.indexError)
    ∧ (mergeOpinionClusters oracleA 2 stBatch).2 = RecResult.committed
    ∧ (mergeOpinionClusters oracleA 2 stBatch).1 ≠ stBatch := by
  refine ⟨by decide, by decide, by decide⟩

/-- C2 (amended): a record result the per-record handlers absorb — commit,
skip, or either named abort — does not halt the batch: the loop continues
with the remaining ids from the post-record store.  (Only an uncaught
exception, as in the counterexample, terminates the loop.) -/
theorem c2_named_aborts_do_not_halt_batch (o : Oracles) (cid : Nat)
    (rest : List Nat) (s : Store)
    (h : (mergeOpinionClusters o cid s).2.isUncaught = false) :
    runBatch o (cid :: rest) s = runBatch o rest (mergeOpinionClusters o cid s).1 := by
  have step : runBatch o (cid :: rest) s
      = match mergeOpinionClusters o cid s with
        | (s1, RecResult.uncaught e) => (s1, some e)
        | (s1, _) => runBatch o rest s1 := rfl
  rw [step]
  rcases hm : mergeOpinionClusters o cid s with ⟨s1, r⟩
  cases r <;> simp_all [RecResult.isUncaught]

/-- C2 witness: the authorship abort on record 1 leaves the batch running:
processing [1, 2] equals processing [2] from the post-abort store. -/
theorem c2_named_aborts_do_not_halt_batch_witness :
    (mergeOpinionClusters oracleA 1 stAbort).2.isUncaught = false
    ∧ runBatch oracleA [1, 2] stAbort
        = runBatch oracleA [2] (mergeOpinionClusters oracleA 1 stAbort).1 :=
  ⟨by decide, c2_named_aborts_do_not_halt_batch oracleA 1 [2] stAbort (by decide)⟩

/-- C4: whenever one record merge terminates in a named abort — authorship
mismatch or judges-disjoint — the store is exactly the pre-merge store:
the exception leaves the atomic block, every write of the transaction rolls
back, and the handler only logs.  Zero writes commit for that record. -/
theorem c4_named_abort_rolls_back_all_writes (o : Oracles) (cid : Nat)
    (s : Store)
    (h : (mergeOpinionClusters o cid s).2 = RecResult.abortedAuthorship
       ∨ (mergeOpinionClusters o cid s).2 = RecResult.abortedJudges) :
    (mergeOpinionClusters o cid s).1 = s := by
  rcases hr : readJson s cid with e | ohd
  · unfold mergeOpinionClusters at h ⊢
    rw [hr] at h ⊢
  · unfold mergeOpinionClusters at h ⊢
    rw [hr] at h ⊢
    cases ohd with
    | none => simp at h
    | some hd =>
      dsimp only at h ⊢
      rcases hb : mergeBody o cid hd s with e | s1
      · cases e <;> simp_all
      · rw [hb] at h
        rcases h with hc | hc <;> exact RecResult.noConfusion hc

/-- C4 witness: a concrete merge that aborts on an authorship mismatch
(existing author J. Smith, imported author John Doe) and leaves the store
untouched, including the opinion write the transaction had already made. -/
theorem c4_named_abort_rolls_back_all_writes_witness :
    (mergeOpinionClusters oracleA 1 stAbort).2 = RecResult.abortedAuthorship
    ∧ (mergeOpinionClusters oracleA 1 stAbort).1 = stAbort :=
  ⟨by decide,
   c4_named_abort_rolls_back_all_writes oracleA 1 stAbort (Or.inl (by decide))⟩

/-- C5: the long-narrative-text policy, for every oracle and every pair of
values: at similarity at least 0.9 (the boundary 0.9 itself included) the
existing value is kept with no write; strictly below 0.9 the field is
overwritten exactly when the imported value is strictly longer, so ties and
shorter imported values keep the existing value with no write. -/
theorem c5_long_text_policy (o : Oracles) (cid : Nat) (fieldName : String)
    (hv cv : String) (s : Store) :
    mergeLongFields o cid fieldName (hv, cv) s
      = Except.ok
          (if o.sim hv cv < (9 : ℚ) / 10 ∧ hv.length > cv.length then
            updateClusterField s cid fieldName hv
          else s) := by
  unfold mergeLongFields
  by_cases h1 : o.sim hv cv < (9 : ℚ) / 10 <;>
    by_cases h2 : hv.length > cv.length <;>
    simp [h1, h2]

/-- Bridge: list-to-Finset subset is pointwise membership. -/
lemma toFinset_subset_iff (a b : List String) :
    a.toFinset ⊆ b.toFinset ↔ ∀ x ∈ a, x ∈ b := by
  simp [Finset.subset_iff]

/-- Bridge: list-to-Finset equality is mutual pointwise membership. -/
lemma toFinset_eq_iff (a b : List String) :
    a.toFinset = b.toFinset ↔ ((∀ x ∈ a, x ∈ b) ∧ (∀ x ∈ b, x ∈ a)) := by
  rw [Finset.Subset.antisymm_iff, toFinset_subset_iff, toFinset_subset_iff]

/-- Bridge: list-to-Finset intersection is empty exactly on pointwise
disjointness. -/
lemma toFinset_inter_empty_iff (a b : List String) :
    a.toFinset ∩ b.toFinset = ∅ ↔ ∀ x ∈ a, x ∉ b := by
  simp [Finset.eq_empty_iff_forall_not_mem]

/-- C6 (amended): the judges policy in membership terms.  When the imported
last-name set strictly contains the existing one the field is overwritten
with the titlecased comma-join of the imported extraction list IN EXTRACTION
ORDER — merge_judges applies no sorting and no dedup (contrast
fetch_non_harvard_data, which sorts); when the two sets share no name,
JudgeException; otherwise no write. -/
theorem c6_judges_policy (o : Oracles) (cid : Nat) (hv cv : String)
    (s : Store) :
    mergeJudges o cid (hv, cv) s =
      (if (∀ x ∈ o.extractJudges cv, x ∈ o.extractJudges hv)
          ∧ ¬((∀ x ∈ o.extractJudges hv, x ∈ o.extractJudges cv)
              ∧ (∀ x ∈ o.extractJudges cv, x ∈ o.extractJudges hv)) then
        Except.ok (updateClusterField s cid "judges"
          (o.titlecase (String.intercalate ", " (o.extractJudges hv))))
      else if ∀ x ∈ o.extractJudges hv, x ∉ o.extractJudges cv then
        Except.error MergeErr.judge
      else
        Except.ok s) := by
  unfold mergeJudges
  simp only [ne_eq, toFinset_subset_iff, toFinset_eq_iff,
    toFinset_inter_empty_iff]

/-- C6 counterexample: the claim says the overwrite is sorted (its own
example: harvard Smith and Jones over existing Smith yields "Jones, Smith").
With an extractor returning the names in text order — the extractor
interface promises a set, no order — the strict-superset overwrite stores
"Smith, Jones", not the sorted "Jones, Smith". -/
theorem c6_counterexample_join_is_unsorted :
    mergeJudges oracleB 1 ("Smith, Jones", "Smith") stOne
      = Except.ok (updateClusterField stOne 1 "judges" "Smith, Jones")
    ∧ getField (setField [("judges", "Smith")] "judges" "Smith, Jones") "judges"
        = "Smith, Jones"
    ∧ "Smith, Jones" ≠ "Jones, Smith" := by
  refine ⟨by rfl, by decide, by decide⟩

/-- C7: whenever the imported segment count differs from the existing
opinion count, or the matcher returns no mapping, the opinion merge creates
exactly one new combined-type opinion holding the entire imported case body
verbatim, appended after the untouched pre-existing opinion rows. -/
theorem c7_abandoned_alignment_creates_one_combined (o : Oracles) (cid : Nat)
    (hd : HarvardData) (s : Store)
    (hc : getCluster? s cid ≠ none)
    (hm : hd.opinions.length ≠ (opinionsOf s cid).length
        ∨ o.matchLists hd.opinions (fetchClOpinionContent o (opinionsOf s cid))
            = []) :
    mapAndMergeOpinions o cid hd s
      = Except.ok (appendCombined s cid hd.casebodyData) := by
  have hcc : createCombined cid hd.casebodyData s
      = Except.ok (appendCombined s cid hd.casebodyData) := by
    rcases hg : getCluster? s cid with _ | c
    · exact absurd hg hc
    · unfold createCombined getClusterE
      rw [hg]
      rfl
  have hlen : (fetchClOpinionContent o (opinionsOf s cid)).length
      = (opinionsOf s cid).length := List.length_map _ _
  show (if hd.opinions.length ≠ (fetchClOpinionContent o (opinionsOf s cid)).length
        then createCombined cid hd.casebodyData s
        else
          if o.matchLists hd.opinions (fetchClOpinionContent o (opinionsOf s cid)) = []
          then createCombined cid hd.casebodyData s
          else mergeMatchedPairs o (opinionsOf s cid) hd.opinions
            (o.matchLists hd.opinions (fetchClOpinionContent o (opinionsOf s cid))) s)
      = Except.ok (appendCombined s cid hd.casebodyData)
  rcases hm with hm | hm
  · rw [if_pos (by rw [hlen]; exact hm)]
    exact hcc
  · by_cases hl : hd.opinions.length
        ≠ (fetchClOpinionContent o (opinionsOf s cid)).length
    · rw [if_pos hl]
      exact hcc
    · rw [if_neg hl, if_pos hm]
      exact hcc

/-- One-cluster store with three existing opinions, for the length-mismatch
fixture of the opinion aligner. -/
def stThreeOps : Store :=
  { clusters := [
      { id := 1, docketId := 1, caseName := "A v. B", caseNameFull := "",
        dateFiledIsApprox := false, fields := [], harvardJson := none }],
    dockets := [{ id := 1, docketNumber := "", source := 2 }],
    opinions := [
      { opJSmith with id := 10 },
      { opJSmith with id := 11, authorStr := "" },
      { opJSmith with id := 12, authorStr := "" }],
    nextOpinionId := 100 }

/-- Imported dataset with two opinion segments, for the length-mismatch
fixture (two imported segments against three existing opinions). -/
def hdTwoSegments : HarvardData :=
  { casebodyData := "<casebody>full body</casebody>",
    opinions := [
      { authorTexts := ["John Smith"], markup := "m1" },
      { authorTexts := [], markup := "m2" }],
    docketNumber := "", name := "", nameAbbreviation := "", extracted := [] }

/-- C7 witness: two imported segments against three existing opinions gives
exactly the single appended combined opinion carrying the whole case body. -/
theorem c7_abandoned_alignment_creates_one_combined_witness :
    getCluster? stThreeOps 1 ≠ none
    ∧ hdTwoSegments.opinions.length ≠ (opinionsOf stThreeOps 1).length
    ∧ mapAndMergeOpinions oracleA 1 hdTwoSegments stThreeOps
        = Except.ok (appendCombined stThreeOps 1 hdTwoSegments.casebodyData) :=
  ⟨by decide, by decide,
   c7_abandoned_alignment_creates_one_combined oracleA 1 hdTwoSegments
     stThreeOps (by decide) (Or.inl (by decide))⟩

/-- Mapping an id-preserving per-row update past a row lookup. -/
lemma findCluster_map_upd (cid : Nat) (g : Cluster → Cluster)
    (hg : ∀ c, (g c).id = c.id) (cs : List Cluster) :
    findCluster (cs.map (fun c => if c.id == cid then g c else c)) cid
      = (findCluster cs cid).map (fun c => if c.id == cid then g c else c) := by
  induction cs with
  | nil => rfl
  | cons a rest ih =>
    by_cases h : (a.id == cid) = true
    · have h2 : (((if a.id == cid then g a else a).id == cid)) = true := by
        rw [if_pos h, hg]
        exact h
      have e1 : List.find? (fun c => c.id == cid)
          ((if a.id == cid then g a else a)
            :: rest.map (fun c => if c.id == cid then g c else c))
          = some (if a.id == cid then g a else a) :=
        List.find?_cons_of_pos _ h2
      have e2 : List.find? (fun c => c.id == cid) (a :: rest) = some a :=
        List.find?_cons_of_pos _ h
      unfold findCluster
      rw [List.map_cons, e1, e2]
      simp
    · have h2 : ¬ (((if a.id == cid then g a else a).id == cid)) = true := by
        rw [if_neg h]
        exact h
      have e1 : List.find? (fun c => c.id == cid)
          ((if a.id == cid then g a else a)
            :: rest.map (fun c => if c.id == cid then g c else c))
          = List.find? (fun c => c.id == cid)
              (rest.map (fun c => if c.id == cid then g c else c)) :=
        List.find?_cons_of_neg _ h2
      have e2 : List.find? (fun c => c.id == cid) (a :: rest)
          = List.find? (fun c => c.id == cid) rest :=
        List.find?_cons_of_neg _ h
      unfold findCluster at *
      rw [List.map_cons, e1, e2]
      exact ih

/-- The cluster row visible after the case-name update. -/
lemma getCluster?_updateClusterNames (s : Store) (cid : Nat)
    (n f : Option String) :
    getCluster? (updateClusterNames s cid n f) cid
      = (getCluster? s cid).map (fun c =>
          if c.id == cid then
            { c with caseName := n.getD c.caseName,
                     caseNameFull := f.getD c.caseNameFull }
          else c) :=
  findCluster_map_upd cid
    (fun c => { c with caseName := n.getD c.caseName,
                       caseNameFull := f.getD c.caseNameFull })
    (fun _ => rfl) s.clusters

/-- C8 (amended): when BOTH independently resolved (harmonized) names are
non-empty and the resolved short name is strictly longer than the resolved
full name, merge_case_names stores exactly the two resolved values swapped —
the short column receives the resolved full name and the full column the
resolved short name, nothing truncated — so the stored full name is then at
least as long as the stored short name.  (When the resolved full name is
empty the swap branch is skipped and no such guarantee holds: see the
counterexample.) -/
theorem c8_swap_never_truncates (o : Oracles) (cid : Nat) (hd : HarvardData)
    (s : Store) (c : Cluster)
    (hc : getCluster? s cid = some c)
    (hfNe : (resolveName (o.harmonize c.caseNameFull) (o.harmonize hd.name)).2 ≠ "")
    (hnNe : (resolveName (o.harmonize c.caseName) (o.harmonize hd.nameAbbreviation)).2 ≠ "")
    (hlt : (resolveName (o.harmonize c.caseNameFull) (o.harmonize hd.name)).2.length
         < (resolveName (o.harmonize c.caseName) (o.harmonize hd.nameAbbreviation)).2.length) :
    mergeCaseNames o cid hd s
      = Except.ok (updateClusterNames s cid
          (some (resolveName (o.harmonize c.caseNameFull) (o.harmonize hd.name)).2)
          (some (resolveName (o.harmonize c.caseName) (o.harmonize hd.nameAbbreviation)).2))
    ∧ (∀ c1, getCluster? (updateClusterNames s cid
          (some (resolveName (o.harmonize c.caseNameFull) (o.harmonize hd.name)).2)
          (some (resolveName (o.harmonize c.caseName) (o.harmonize hd.nameAbbreviation)).2)) cid
          = some c1 → c1.caseName.length ≤ c1.caseNameFull.length) := by
  have hupd : caseNameUpd
      (resolveName (o.harmonize c.caseNameFull) (o.harmonize hd.name))
      (resolveName (o.harmonize c.caseName) (o.harmonize hd.nameAbbreviation))
      = (some (resolveName (o.harmonize c.caseNameFull) (o.harmonize hd.name)).2,
         some (resolveName (o.harmonize c.caseName) (o.harmonize hd.nameAbbreviation)).2) := by
    unfold caseNameUpd
    rw [if_pos ⟨hfNe, hnNe, hlt⟩]
  constructor
  · unfold mergeCaseNames getClusterE
    rw [hc]
    show Except.ok (updateClusterNames s cid (caseNameUpd _ _).1 (caseNameUpd _ _).2) = _
    rw [hupd]
  · intro c1 h1
    rw [getCluster?_updateClusterNames, hc] at h1
    have hc2 : List.find? (fun x => x.id == cid) s.clusters = some c := hc
    have hid : (c.id == cid) = true :=
      List.find?_some (p := fun (x : Cluster) => x.id == cid) hc2
    rw [Option.map_some', if_pos hid] at h1
    cases Option.some.inj h1
    simpa using Nat.le_of_lt hlt

/-- Cluster row and store for the case-name swap witness: short name longer
than the (non-empty) full name. -/
def cLongShort : Cluster :=
  { id := 1, docketId := 1, caseName := "abcdef", caseNameFull := "abc",
    dateFiledIsApprox := false, fields := [], harvardJson := none }

def stLongShort : Store :=
  { clusters := [cLongShort],
    dockets := [{ id := 1, docketNumber := "", source := 2 }],
    opinions := [], nextOpinionId := 100 }

/-- C8 witness: resolved short name abcdef, resolved full name abc — the
stored pair is exactly the swap of the two resolved values. -/
theorem c8_swap_never_truncates_witness :
    mergeCaseNames oracleA 1 hdEmptyBody stLongShort
      = Except.ok (updateClusterNames stLongShort 1 (some "abc") (some "abcdef")) :=
  (c8_swap_never_truncates oracleA 1 hdEmptyBody stLongShort cLongShort rfl
    (by decide) (by decide) (by decide)).1

/-- C8 counterexample: the claim promises the stored full case name is never
shorter than the stored short case name.  With an existing short name abc
and an empty full name (imported names empty), resolution leaves both as
they are, the resolved short name is strictly longer than the resolved full
name, yet the swap branch does not fire (it requires both locals non-empty):
the stored full name stays the empty string, shorter than abc. -/
theorem c8_counterexample_empty_full_name_not_swapped :
    mergeCaseNames oracleA 1 hdEmptyBody stShortOnly
      = Except.ok (updateClusterNames stShortOnly 1 none none)
    ∧ getCluster? (updateClusterNames stShortOnly 1 none none) 1
        = some { id := 1, docketId := 1, caseName := "abc", caseNameFull := "",
                 dateFiledIsApprox := false, fields := [], harvardJson := none }
    ∧ ("" : String).length < ("abc" : String).length := by
  refine ⟨by rfl, by decide, by decide⟩

/-- C9: for one aligned pair whose existing opinion has a free-text author
and no resolved author reference, and whose imported segment carries an
author sub-element: a last-name extraction mismatch raises AuthorException
(the whole record merge then aborts, per the rollback theorem); a match
overwrites author_str with the imported author text and stores the imported
segment markup verbatim on that opinion, in one save. -/
theorem c9_author_mismatch_aborts_match_overwrites (o : Oracles)
    (subOps : List Opinion) (harvardOps : List HarvardOpinion) (k v : Nat)
    (s : Store) (op : Opinion) (hop : HarvardOpinion) (t : String)
    (ts : List String)
    (hk : subOps.get? k = some op) (hv2 : harvardOps.get? v = some hop)
    (ha : op.authorStr ≠ "") (hrf : op.author = none)
    (ht : hop.authorTexts = t :: ts) :
    (o.extractJudges op.authorStr ≠ o.extractJudges t →
        mergeMatchedPair o subOps harvardOps (k, v) s
          = Except.error MergeErr.author)
    ∧ (o.extractJudges op.authorStr = o.extractJudges t →
        mergeMatchedPair o subOps harvardOps (k, v) s
          = Except.ok (updateOpinion s
              { op with authorStr := t, xmlHarvard := hop.markup })) := by
  have hred : mergeMatchedPair o subOps harvardOps (k, v) s
      = if o.extractJudges op.authorStr ≠ o.extractJudges t then
          Except.error MergeErr.author
        else
          Except.ok (updateOpinion s
            { op with authorStr := t, xmlHarvard := hop.markup }) := by
    unfold mergeMatchedPair
    rw [show (k, v).1 = k from rfl, show (k, v).2 = v from rfl, hk, hv2]
    dsimp only
    rw [if_pos ⟨ha, hrf⟩, ht]
  constructor
  · intro hne
    rw [hred, if_pos hne]
  · intro heq
    rw [hred, if_neg (fun hne => hne heq)]

/-- Matched-pair fixture: the existing opinion authored J. Smith (free text,
no resolved author), the imported segment authored John Smith; the extractor
maps both to the same last name. -/
def hopJohnSmith : HarvardOpinion :=
  { authorTexts := ["John Smith"], markup := "m9" }

/-- C9 witness: the last names match, so author_str becomes John Smith and
the segment markup lands on the opinion. -/
theorem c9_author_mismatch_aborts_match_overwrites_witness :
    oracleA.extractJudges "J. Smith" = oracleA.extractJudges "John Smith"
    ∧ mergeMatchedPair oracleA [opJSmith] [hopJohnSmith] (0, 0) stOne
        = Except.ok (updateOpinion stOne
            { opJSmith with authorStr := "John Smith", xmlHarvard := "m9" }) :=
  ⟨by decide,
   (c9_author_mismatch_aborts_match_overwrites oracleA [opJSmith]
      [hopJohnSmith] 0 0 stOne opJSmith hopJohnSmith "John Smith" [] rfl rfl
      (by decide) rfl rfl).2 (by decide)⟩
